import Mathlib

/-!
Verification development for `src/speedtest.py` (AdGuard VPN node speed test
orchestrator).  The Python source is shallowly embedded: every definition below
is translated from a concrete place in the source file, noted in its comment.
-/

namespace AdguardSpeedtest

/-! ## Location catalog parsing (`get_locations`, src/speedtest.py lines 58-72)

The parser applies the Python regex
`^\s*([A-Z]{2})\s+(.+?)\s{2,}(.+?)\s{2,}(\d+)\s*$`
to each line via `re.match`.  The matcher below implements exactly this
pattern with the backtracking semantics of Python: greedy quantifiers try longer
consumptions first, lazy quantifiers (`+?`) try shorter ones first, and `.`
matches any character except a newline. -/

/-- Python `\s` on the ASCII output of the CLI: space, tab, newline, CR, VT, FF. -/
def isWsChar (c : Char) : Bool :=
  c = ' ' || c = '\t' || c = '\n' || c = '\r' || c = '\x0b' || c = '\x0c'

/-- Python `[A-Z]`. -/
def isUpperAZ (c : Char) : Bool := 'A' ≤ c && c ≤ 'Z'

/-- Python `\d` on ASCII output. -/
def isDigitCh (c : Char) : Bool := '0' ≤ c && c ≤ '9'

/-- `(\d+)\s*$`: a nonempty greedy digit run followed by a whitespace-only
tail.  Digits and whitespace are disjoint classes, so only the maximal digit
run can be followed by a whitespace-only tail; the greedy search therefore
reduces to taking that maximal run. -/
def numTail (s : List Char) : Option (List Char) :=
  let digits := s.takeWhile isDigitCh
  let rest := s.dropWhile isDigitCh
  if !digits.isEmpty && rest.all isWsChar then some digits else none

/-- `\s{2,}(\d+)\s*$` starting with a gap of exactly `g` whitespace chars:
greedy, so gap lengths are tried from `g` downward, stopping at 2. -/
def gapNumGo : Nat → List Char → Option (List Char)
  | 0, _ => none
  | 1, _ => none
  | g + 2, s =>
    match numTail (s.drop (g + 2)) with
    | some d => some d
    | none => gapNumGo (g + 1) s

def gapNum (s : List Char) : Option (List Char) :=
  gapNumGo (s.takeWhile isWsChar).length s

/-- `(.+?)\s{2,}(\d+)\s*$` — the city capture.  The lazy `+?` tries the
shortest nonempty capture first and extends one (non-newline) character at a
time.  Returns (city capture, digit capture). -/
def cityGo (acc : List Char) : List Char → Option (List Char × List Char)
  | [] => none
  | c :: rest =>
    if c = '\n' then none
    else
      match gapNum rest with
      | some d => some (acc ++ [c], d)
      | none => cityGo (acc ++ [c]) rest

/-- `\s{2,}` before the city, greedy with backtracking down to 2. -/
def gapCityGo : Nat → List Char → Option (List Char × List Char)
  | 0, _ => none
  | 1, _ => none
  | g + 2, s =>
    match cityGo [] (s.drop (g + 2)) with
    | some r => some r
    | none => gapCityGo (g + 1) s

def gapCity (s : List Char) : Option (List Char × List Char) :=
  gapCityGo (s.takeWhile isWsChar).length s

/-- `(.+?)\s{2,}(.+?)\s{2,}(\d+)\s*$` — the country capture (lazy), then the
rest.  Returns (country, city, digits). -/
def countryGo (acc : List Char) : List Char → Option (List Char × List Char × List Char)
  | [] => none
  | c :: rest =>
    if c = '\n' then none
    else
      match gapCity rest with
      | some (ci, d) => some (acc ++ [c], ci, d)
      | none => countryGo (acc ++ [c]) rest

/-- `\s+` after the ISO code, greedy with backtracking down to 1. -/
def wsPlusCountryGo : Nat → List Char → Option (List Char × List Char × List Char)
  | 0, _ => none
  | g + 1, s =>
    match countryGo [] (s.drop (g + 1)) with
    | some r => some r
    | none => wsPlusCountryGo g s

def wsPlusCountry (s : List Char) : Option (List Char × List Char × List Char) :=
  wsPlusCountryGo (s.takeWhile isWsChar).length s

/-- `([A-Z]{2})\s+...` anchored at the current position. -/
def isoAt (s : List Char) : Option (List Char × List Char × List Char × List Char) :=
  match s with
  | c1 :: c2 :: rest =>
    if isUpperAZ c1 && isUpperAZ c2 then
      match wsPlusCountry rest with
      | some (co, ci, d) => some ([c1, c2], co, ci, d)
      | none => none
    else none
  | _ => none

/-- Leading `^\s*`, greedy: skip lengths tried from `g` downward to 0. -/
def leadWsGo : Nat → List Char → Option (List Char × List Char × List Char × List Char)
  | 0, s => isoAt s
  | g + 1, s =>
    match isoAt (s.drop (g + 1)) with
    | some r => some r
    | none => leadWsGo g s

/-- `re.match` of the whole location pattern, returning the four captures. -/
def matchLocationLine (s : List Char) :
    Option (List Char × List Char × List Char × List Char) :=
  leadWsGo (s.takeWhile isWsChar).length s

/-- Python `str.strip()`: remove leading and trailing whitespace. -/
def stripChars (s : List Char) : List Char :=
  ((s.dropWhile isWsChar).reverse.dropWhile isWsChar).reverse

/-- One parsed VPN location, the dict built at src/speedtest.py line 67. -/
structure Location where
  iso : String
  country : String
  city : String
  pingEstimate : String
deriving DecidableEq, Repr

/-- Parsing of one output line (src/speedtest.py lines 62-67). -/
def parseLine (line : String) : Option Location :=
  match matchLocationLine line.data with
  | some (i, co, ci, d) =>
    some { iso := ⟨stripChars i⟩, country := ⟨stripChars co⟩,
           city := ⟨stripChars ci⟩, pingEstimate := ⟨stripChars d⟩ }
  | none => none

/-- The accumulation loop of `get_locations` over the output lines
(src/speedtest.py lines 61-67): matching lines are appended in order,
non-matching lines are skipped. -/
def getLocationsLoop (lines : List String) : List Location :=
  lines.foldl
    (fun acc line =>
      match parseLine line with
      | some l => acc ++ [l]
      | none => acc) []

/-! ## CSV rows and dictionaries

A Python dict of strings is embedded as an association list with its key
order; the dicts built by the script have pairwise distinct keys. -/

/-- A CSV record / Python dict: ordered (key, value) pairs. -/
abbrev Row := List (String × String)

/-- Python dict lookup `r[k]` / `r.get(k)`. -/
def rowLookup (r : Row) (k : String) : Option String :=
  match r.find? (fun kv => kv.1 == k) with
  | some kv => some kv.2
  | none => none

/-- Python dict merge of `a` then `b`: keys of `a` first (values overridden
by `b` where shared), then the remaining keys of `b` (src/speedtest.py
line 146). -/
def mergeDicts (a b : Row) : Row :=
  (a.map fun kv => (kv.1, (rowLookup b kv.1).getD kv.2)) ++
    b.filter fun kv => (rowLookup a kv.1).isNone

/-- The location dict of src/speedtest.py line 67, as passed to the cycle. -/
def locationRow (loc : Location) : Row :=
  [("ISO", loc.iso), ("Country", loc.country), ("City", loc.city),
   ("Ping Estimate", loc.pingEstimate)]

/-! ## Result store (`csv.DictWriter` state, src/speedtest.py lines 146-151
and 197-209) -/

/-- The writer plus result-file state: `writer.fieldnames`, the `is_new_file`
one-element list, and the lines of the file (each a list of cells). -/
structure CsvState where
  fieldnames : List String
  isNewFile : Bool
  content : List (List String)
deriving DecidableEq, Repr

/-- `DictWriter.writerow` cell selection with `extrasaction` set to ignore and
the default empty `restval`: the row is shaped to the fieldnames; record
fields not among the fieldnames are dropped, missing ones become `""`. -/
def shapeRow (fieldnames : List String) (rec : Row) : List String :=
  fieldnames.map fun k => (rowLookup rec k).getD ""

/-- The write step at src/speedtest.py lines 147-151: on the first write to a
new/empty file the key list of the record becomes the fieldnames and the header row
is written once; every write appends one shaped row. -/
def writeRecord (st : CsvState) (rec : Row) : CsvState :=
  if st.isNewFile then
    let hdr := rec.map Prod.fst
    { fieldnames := hdr, isNewFile := false,
      content := st.content ++ [hdr, shapeRow hdr rec] }
  else
    { st with content := st.content ++ [shapeRow st.fieldnames rec] }

/-- Opening the active result file (src/speedtest.py lines 197-209):
`none` = file does not exist, `some []` = empty file (size 0, or no first CSV
row); otherwise the pre-existing first line is read once and becomes the
fieldnames, and is never rewritten. -/
def openCsv (existing : Option (List (List String))) : CsvState :=
  match existing with
  | none => { fieldnames := [], isNewFile := true, content := [] }
  | some [] => { fieldnames := [], isNewFile := true, content := [] }
  | some (hdr :: rows) =>
    { fieldnames := hdr, isNewFile := false, content := hdr :: rows }

/-- A sequence of record writes against one open file. -/
def appendRecords (st : CsvState) (recs : List Row) : CsvState :=
  recs.foldl writeRecord st

/-! ## Process-wide network state and the measurement cycle
(`test_and_record_speed`, src/speedtest.py lines 95-152) -/

/-- The value of the global `socket.socket` constructor. -/
inductive SocketImpl where
  | plainSocket
  | socksocket
deriving DecidableEq, Repr

/-- A PySocks default-proxy configuration `(proxy_type, host, port)`. -/
structure ProxyCfg where
  proxyType : Nat
  host : String
  port : Nat
deriving DecidableEq, Repr

def SOCKS_HOST : String := "127.0.0.1"

def SOCKS_PORT : Nat := 1080

/-- `socks.set_default_proxy(socks.SOCKS5, SOCKS_HOST, SOCKS_PORT)`
(src/speedtest.py line 111); `socks.SOCKS5 = 2`. -/
def socksProxy : ProxyCfg := { proxyType := 2, host := SOCKS_HOST, port := SOCKS_PORT }

/-- The process-wide mutable network redirection state: the global
`socket.socket` constructor and the PySocks default proxy. -/
structure NetState where
  socketCtor : SocketImpl
  defaultProxy : Option ProxyCfg
deriving DecidableEq, Repr

/-- Outcome of the speedtest client calls inside the inner `try`
(src/speedtest.py lines 114-130): either `s.results.dict()` on success, or
any raised exception (caught at line 132, leaving `speed_results` empty). -/
inductive MeasureOutcome where
  | ok (results : Row)
  | exn
deriving DecidableEq, Repr

/-- The externally-determined events of one cycle: whether
`adguardvpn-cli connect -l <iso>` exits zero, and the measurement outcome. -/
structure CycleInput where
  connectOk : Bool
  measure : MeasureOutcome
deriving DecidableEq, Repr

/-- Observable actions of one measurement cycle, in order. -/
inductive Event where
  | connectCmd (iso : String)
  | proxyInstall
  | measureAttempt
  | proxyRestore
  | disconnectCmd
deriving DecidableEq, Repr

structure CycleResult where
  net : NetState
  csv : CsvState
  record : Option Row
  events : List Event
deriving DecidableEq, Repr

/-- `test_and_record_speed` (src/speedtest.py lines 95-152).
A failed connect (`CalledProcessError`, line 101) returns at once: no proxy
mutation, no measurement, no write.  Otherwise the original `socket.socket`
is saved (line 107), the proxy is installed and the measurement attempted
inside `try`, and the `finally` (lines 135-141) restores the saved socket
constructor, resets the default proxy and issues the disconnect.  A record is
written only when `speed_results` is nonempty (lines 143-151). -/
def test_and_record_speed (loc : Location) (inp : CycleInput)
    (net : NetState) (csv : CsvState) : CycleResult :=
  if !inp.connectOk then
    { net := net, csv := csv, record := none, events := [.connectCmd loc.iso] }
  else
    let original := net.socketCtor
    let speedResults : Row :=
      match inp.measure with
      | .ok rs => rs
      | .exn => []
    let netAfter : NetState := { socketCtor := original, defaultProxy := none }
    let evs : List Event :=
      [.connectCmd loc.iso, .proxyInstall, .measureAttempt, .proxyRestore, .disconnectCmd]
    if speedResults.isEmpty then
      { net := netAfter, csv := csv, record := none, events := evs }
    else
      let fullResult := mergeDicts (locationRow loc) speedResults
      { net := netAfter, csv := writeRecord csv fullResult,
        record := some fullResult, events := evs }

/-- Whether a cycle appends a record: connect succeeded and the measurement
returned a nonempty results dict. -/
def cycleSucceeds (inp : CycleInput) : Bool :=
  inp.connectOk &&
    match inp.measure with
    | .ok (_ :: _) => true
    | _ => false

/-! ## The controller loop (src/speedtest.py lines 211-219) -/

structure LoopState where
  net : NetState
  csv : CsvState
  connects : List String
  recorded : List String
deriving DecidableEq, Repr

/-- The per-location loop of `main`: a location whose ISO is in the resume set
`tested` is skipped with a log line; otherwise the cycle runs (the resume set
is never updated during the loop).  `connects` collects the ISO codes whose
connect command was invoked, `recorded` the ISO codes for which a row was
appended (the ISO cell of a written row is the ISO of the location, per
`locationRow`). -/
def runLoop (tested : List String) (inputs : Location → CycleInput) :
    List Location → LoopState → LoopState
  | [], st => st
  | loc :: rest, st =>
    if loc.iso ∈ tested then runLoop tested inputs rest st
    else
      let r := test_and_record_speed loc (inputs loc) st.net st.csv
      runLoop tested inputs rest
        { net := r.net, csv := r.csv,
          connects := st.connects ++ [loc.iso],
          recorded := st.recorded ++
            (match r.record with
             | some _ => [loc.iso]
             | none => []) }

def initLoopState (net : NetState) (csv : CsvState) : LoopState :=
  { net := net, csv := csv, connects := [], recorded := [] }

/-! ## Resume-state loading (`load_tested_nodes`, src/speedtest.py
lines 74-93) -/

/-- What the filesystem and the reader of the chosen file yield during
`load_tested_nodes`: the matching result files with their mtimes, the rows the
`csv.DictReader` yields before any error, and whether opening/iterating then
raised (the `except` at line 91 only logs the error). -/
structure LoadScenario where
  candidates : List (String × Nat)
  rowsRead : List Row
  readError : Bool
deriving DecidableEq, Repr

/-- Python `max(files, key=mtime)`: the first file with the maximal mtime. -/
def latestFile (c0 : String × Nat) (cs : List (String × Nat)) : String × Nat :=
  cs.foldl (fun best c => if c.2 > best.2 then c else best) c0

/-- The accumulation at src/speedtest.py lines 87-89: a row contributes its
ISO value when the ISO key is present with a non-empty value.  Python collects
into a set; the list here represents it up to membership. -/
def isoValues (rows : List Row) : List String :=
  rows.foldl
    (fun acc r =>
      match rowLookup r "ISO" with
      | some v => if v ≠ "" then acc ++ [v] else acc
      | none => acc) []

/-- `load_tested_nodes`: with no matching files the fresh timestamped default
stays active and the set is empty; otherwise the most recently modified file
becomes the active file (the global is reassigned at line 82, before the
`try`) and the rows read before any error contribute their ISO values — a
read failure is only logged, so the partially accumulated set is returned. -/
def load_tested_nodes (defaultFile : String) (sc : LoadScenario) :
    String × List String :=
  match sc.candidates with
  | [] => (defaultFile, [])
  | c0 :: cs => ((latestFile c0 cs).1, isoValues sc.rowsRead)

/-! ## Config custody (src/speedtest.py lines 168-190 and 225-232) -/

/-- The content of a configuration directory: (relative file name, bytes) pairs. -/
abbrev ConfigContent := List (String × String)

/-- The two filesystem paths the custody code touches:
`/root/.local/share/adguardvpn-cli` and its `.bak` sibling. -/
structure ConfigFs where
  dest : Option ConfigContent
  backup : Option ConfigContent
deriving DecidableEq, Repr

/-- `shutil.copytree(..., ignore=shutil.ignore_patterns("*.socket"))`
(src/speedtest.py lines 186-190). -/
def ignoreSocket (src : ConfigContent) : ConfigContent :=
  src.filter fun f => !(f.1.endsWith ".socket")

/-- Lines 181-183: if the destination directory exists it is moved to the
backup path.  `shutil.move` renames here; a normal run starts with no stale
backup (moving onto an existing directory would nest instead, which the
round-trip theorem excludes by hypothesis). -/
def backupMove (s : ConfigFs) : ConfigFs :=
  match s.dest with
  | some d => { dest := none, backup := some d }
  | none => s

/-- Where in the `try` block (lines 179-219) the run stops: a failure before
the backup move, between the move and the copy, during the copy (leaving an
arbitrary partial destination), or after the copy completed (any later
failure, a caught interruption, or normal completion — the config state is
the same from line 190 on). -/
inductive Injection where
  | beforeMove
  | afterMove
  | duringCopy (copied : Option ConfigContent)
  | afterCopy
  | nofail
deriving DecidableEq

/-- The config filesystem state at the moment the `finally` block starts,
given the initial state, the config of the source principal and the injection. -/
def custodyTryState (init : ConfigFs) (src : ConfigContent) :
    Injection → ConfigFs
  | .beforeMove => init
  | .afterMove => backupMove init
  | .duringCopy copied => { backupMove init with dest := copied }
  | .afterCopy => { backupMove init with dest := some (ignoreSocket src) }
  | .nofail => { backupMove init with dest := some (ignoreSocket src) }

/-- The config cleanup of the `finally` block (src/speedtest.py lines 227-232):
delete the destination directory if present, then move the backup back to the
destination path if a backup exists. -/
def releaseConfig (s : ConfigFs) : ConfigFs :=
  let s1 : ConfigFs := if s.dest.isSome then { s with dest := none } else s
  match s1.backup with
  | some b => { dest := some b, backup := none }
  | none => s1

/-! ## The exit code of `main` (src/speedtest.py lines 155-236) -/

/-- How the measurement loop itself ends when it is reached. -/
inductive LoopOutcome where
  | completes
  | interrupted
  | unexpectedError
deriving DecidableEq, Repr

/-- The externally-determined facts a run of `main` depends on. -/
structure MainScenario where
  euid : Nat
  sudoUser : Option String
  sourceConfigExists : Bool
  binaryPresent : Bool
  listOutput : List String
  loopOutcome : LoopOutcome

/-- How the `try` block of `main` (lines 179-219) terminates. -/
inductive TryOutcome where
  | ok
  | sysExit (code : Nat)
  | keyboardInterrupt
  | unexpected
deriving DecidableEq, Repr

/-- The `try` block: with the binary missing the first `run_command`
(`config set-mode socks`, line 193) hits `FileNotFoundError` and calls
`sys.exit(1)` (line 49); an empty parsed catalog calls `sys.exit(1)`
(line 70); otherwise the loop runs to its outcome. -/
def tryBlock (sc : MainScenario) : TryOutcome :=
  if !sc.binaryPresent then .sysExit 1
  else if (getLocationsLoop sc.listOutput).isEmpty then .sysExit 1
  else
    match sc.loopOutcome with
    | .completes => .ok
    | .interrupted => .keyboardInterrupt
    | .unexpectedError => .unexpected

/-- The `finally` block (lines 225-236) ends with a best-effort disconnect;
when the binary is missing that `run_command` itself calls `sys.exit(1)` from
inside the `finally`, where no handler is active, so `SystemExit 1` escapes. -/
def finallyExitCode (sc : MainScenario) : Option Nat :=
  if !sc.binaryPresent then some 1 else none

/-- The process exit status of `main`.  The three precondition checks before
the `try` (lines 159-177) exit 1 directly.  Every outcome of the `try` block
— including the `SystemExit` raised for a missing binary or an empty catalog
— is caught by the two `except` clauses (lines 221-224) and not re-raised, so
after the `finally` the function returns normally (status 0) unless the
`finally` block itself raised. -/
def mainExitCode (sc : MainScenario) : Nat :=
  if sc.euid ≠ 0 then 1
  else if sc.sudoUser.isNone then 1
  else if !sc.sourceConfigExists then 1
  else
    match tryBlock sc, finallyExitCode sc with
    | _, some c => c
    | _, none => 0

/-! ## Theorems -/

theorem getLocationsLoop_aux (lines : List String) (acc : List Location) :
    lines.foldl
      (fun acc line =>
        match parseLine line with
        | some l => acc ++ [l]
        | none => acc) acc = acc ++ lines.filterMap parseLine := by
  induction lines generalizing acc with
  | nil => simp
  | cons line rest ih =>
    cases h : parseLine line <;> simp [h, ih]

/-- C5: every output line matching the location pattern becomes one Location,
non-matching lines are silently skipped and discovery order is preserved
(`getLocationsLoop` is `filterMap parseLine`); the sample line
"US   United States        New York            12" together with the header
line "ISO  Country  City  Ping" yields exactly the one Location
(US, United States, New York, 12). -/
theorem catalog_parse_correct :
    (∀ lines : List String, getLocationsLoop lines = lines.filterMap parseLine) ∧
    getLocationsLoop
        ["US   United States        New York            12",
         "ISO  Country  City  Ping"] =
      [{ iso := "US", country := "United States", city := "New York",
         pingEstimate := "12" }] ∧
    parseLine "ISO  Country  City  Ping" = none := by
  refine ⟨fun lines => ?_, by decide, by decide⟩
  simpa using getLocationsLoop_aux lines []

/-- The custody round trip does hold for every failure injected at or after
the backup move (and for normal completion), provided no stale backup
pre-exists: the release step restores the pre-acquire destination exactly. -/
theorem custody_round_trip_from_move (init : ConfigFs) (src : ConfigContent)
    (inj : Injection) (hbk : init.backup = none)
    (hinj : inj ≠ Injection.beforeMove) :
    releaseConfig (custodyTryState init src inj) =
      { dest := init.dest, backup := none } := by
  obtain ⟨dest, backup⟩ := init
  simp only at hbk
  subst hbk
  cases inj with
  | beforeMove => exact absurd rfl hinj
  | afterMove => cases dest <;> simp [custodyTryState, backupMove, releaseConfig]
  | duringCopy copied =>
    cases dest <;> cases copied <;>
      simp [custodyTryState, backupMove, releaseConfig]
  | afterCopy => cases dest <;> simp [custodyTryState, backupMove, releaseConfig]
  | nofail => cases dest <;> simp [custodyTryState, backupMove, releaseConfig]

theorem custody_round_trip_from_move_witness :
    releaseConfig (custodyTryState
        { dest := some [("license.db", "root-original")], backup := none }
        [("license.db", "user-config"), ("adguard.socket", "s")]
        (Injection.duringCopy (some [("license.db", "user-config")]))) =
      { dest := some [("license.db", "root-original")], backup := none } :=
  custody_round_trip_from_move
    { dest := some [("license.db", "root-original")], backup := none }
    [("license.db", "user-config"), ("adguard.socket", "s")]
    (Injection.duringCopy (some [("license.db", "user-config")]))
    rfl (by decide)

/-- C1: at the failing input — a pre-existing destination configuration
directory and an interruption caught after the `try` block begins (line 179)
but before the backup move (line 183) — the release step deletes the original
destination directory (line 229) and has no backup to move back, so the
pre-acquire content is not restored: the destination ends absent. -/
theorem custody_round_trip_failing_input :
    releaseConfig (custodyTryState
        { dest := some [("license.db", "root-original")], backup := none }
        [("license.db", "user-config")] Injection.beforeMove) =
      { dest := none, backup := none } ∧
    some [("license.db", "root-original")] ≠ (none : Option ConfigContent) := by
  decide

/-- C2 counterexample: with every precondition met and the binary present,
the `sys.exit(1)` of an empty parsed catalog (line 70) raises `SystemExit`,
which the handler at line 221 catches and swallows, and an unexpected
exception in the controller loop is caught at line 223 and swallowed; both
runs exit 0, while the claim requires a non-zero exit. -/
theorem exit_code_counterexample :
    (getLocationsLoop ["ISO  Country  City  Ping"]).isEmpty = true ∧
    mainExitCode { euid := 0, sudoUser := some "user", sourceConfigExists := true,
                   binaryPresent := true,
                   listOutput := ["ISO  Country  City  Ping"],
                   loopOutcome := .completes } = 0 ∧
    mainExitCode { euid := 0, sudoUser := some "user", sourceConfigExists := true,
                   binaryPresent := true,
                   listOutput := ["US   United States        New York            12"],
                   loopOutcome := .unexpectedError } = 0 := by
  refine ⟨by decide, by decide, by decide⟩

/-- C2 amended: the three precondition checks before the `try` block (missing
privilege, unidentifiable original user, missing source config) exit 1
immediately; once they pass, the exit status depends only on whether the
binary is present: with the binary missing the process exits 1 (the
`SystemExit` raised inside the `try` is caught, but the best-effort disconnect
in the cleanup block raises `SystemExit 1` again, uncaught), while an empty
catalog, an unexpected controller-loop exception, a caught interruption and
normal completion all exit 0 after the cleanup block runs. -/
theorem exit_code_contract (sc : MainScenario) :
    (sc.euid ≠ 0 ∨ sc.sudoUser = none ∨ sc.sourceConfigExists = false →
      mainExitCode sc = 1) ∧
    (sc.euid = 0 → sc.sudoUser ≠ none → sc.sourceConfigExists = true →
      mainExitCode sc = if sc.binaryPresent then 0 else 1) := by
  obtain ⟨euid, su, srcExists, bin, lst, lo⟩ := sc
  constructor
  · intro h
    unfold mainExitCode
    split_ifs with h1 h2 h3
    · rfl
    · rfl
    · rfl
    · exfalso
      rcases h with h | h | h
      · exact h1 h
      · rw [h] at h2; exact h2 rfl
      · rw [h] at h3; exact h3 rfl
  · intro h1 h2 h3
    simp only at h1 h2 h3
    subst h1
    subst h3
    have hsu : su.isNone = false := by
      cases su with
      | none => exact absurd rfl h2
      | some u => rfl
    unfold mainExitCode
    simp only [hsu, ne_eq, not_true_eq_false, if_false, Bool.not_true,
      Bool.false_eq_true, reduceIte]
    cases bin with
    | false =>
      cases tryBlock ⟨0, su, true, false, lst, lo⟩ <;>
        simp [finallyExitCode]
    | true =>
      cases tryBlock ⟨0, su, true, true, lst, lo⟩ <;>
        simp [finallyExitCode]

theorem exit_code_contract_witness :
    mainExitCode { euid := 0, sudoUser := some "user", sourceConfigExists := true,
                   binaryPresent := false, listOutput := [],
                   loopOutcome := .completes } = 1 := by
  have h := (exit_code_contract
      { euid := 0, sudoUser := some "user", sourceConfigExists := true,
        binaryPresent := false, listOutput := [],
        loopOutcome := .completes }).2 rfl (by simp) rfl
  simpa using h

/-- C3: whenever the connect step succeeds, the cycle reverts the global
socket constructor and the default proxy to their prior, non-proxied state
before it ends, regardless of the measurement outcome (the restore runs in
the `finally`, witnessed by the `proxyRestore` event), so a subsequent
network call does not traverse the proxy installed for this cycle. -/
theorem no_orphaned_proxy (loc : Location) (inp : CycleInput) (net : NetState)
    (csv : CsvState) (hconn : inp.connectOk = true)
    (hproxy : net.defaultProxy = none) :
    (test_and_record_speed loc inp net csv).net = net ∧
    Event.proxyRestore ∈ (test_and_record_speed loc inp net csv).events := by
  obtain ⟨ctor, dp⟩ := net
  simp only at hproxy
  subst hproxy
  rcases inp with ⟨co, m⟩
  simp only at hconn
  subst hconn
  cases m with
  | ok rs => cases rs <;> simp [test_and_record_speed]
  | exn => simp [test_and_record_speed]

theorem no_orphaned_proxy_witness :
    (test_and_record_speed
        { iso := "US", country := "United States", city := "New York",
          pingEstimate := "12" }
        { connectOk := true, measure := .exn }
        { socketCtor := .plainSocket, defaultProxy := none }
        (openCsv none)).net =
      { socketCtor := .plainSocket, defaultProxy := none } ∧
    Event.proxyRestore ∈ (test_and_record_speed
        { iso := "US", country := "United States", city := "New York",
          pingEstimate := "12" }
        { connectOk := true, measure := .exn }
        { socketCtor := .plainSocket, defaultProxy := none }
        (openCsv none)).events :=
  no_orphaned_proxy
    { iso := "US", country := "United States", city := "New York",
      pingEstimate := "12" }
    { connectOk := true, measure := .exn }
    { socketCtor := .plainSocket, defaultProxy := none }
    (openCsv none) rfl rfl

theorem record_isSome (loc : Location) (inp : CycleInput) (net : NetState)
    (csv : CsvState) :
    (test_and_record_speed loc inp net csv).record.isSome = cycleSucceeds inp := by
  rcases inp with ⟨co, m⟩
  cases co with
  | false => simp [test_and_record_speed, cycleSucceeds]
  | true =>
    cases m with
    | ok rs => cases rs <;> simp [test_and_record_speed, cycleSucceeds]
    | exn => simp [test_and_record_speed, cycleSucceeds]

/-- The per-location contribution to the recorded ISO list. -/
def recStep (tested : List String) (inputs : Location → CycleInput)
    (loc : Location) : Option String :=
  if loc.iso ∈ tested then none
  else if cycleSucceeds (inputs loc) then some loc.iso else none

theorem recStep_eq_some (tested : List String) (inputs : Location → CycleInput)
    (loc : Location) (x : String) :
    recStep tested inputs loc = some x ↔
      loc.iso ∉ tested ∧ cycleSucceeds (inputs loc) = true ∧ loc.iso = x := by
  unfold recStep
  split_ifs with h1 h2
  · simp [h1]
  · simp [h1, h2]
  · simp [h1, h2]

theorem runLoop_recorded (tested : List String) (inputs : Location → CycleInput)
    (catalog : List Location) : ∀ st : LoopState,
    (runLoop tested inputs catalog st).recorded =
      st.recorded ++ catalog.filterMap (recStep tested inputs) := by
  induction catalog with
  | nil => intro st; simp [runLoop]
  | cons loc rest ih =>
    intro st
    by_cases hmem : loc.iso ∈ tested
    · simp [runLoop, hmem, ih, recStep]
    · have hrec := record_isSome loc (inputs loc) st.net st.csv
      by_cases hsucc : cycleSucceeds (inputs loc) = true
      · rw [hsucc] at hrec
        obtain ⟨r, hr⟩ := Option.isSome_iff_exists.mp hrec
        simp [runLoop, hmem, hr, recStep, hsucc, ih]
      · have hf : cycleSucceeds (inputs loc) = false :=
          Bool.eq_false_iff.mpr hsucc
        rw [hf] at hrec
        have hr : (test_and_record_speed loc (inputs loc) st.net st.csv).record = none :=
          Option.not_isSome_iff_eq_none.mp (by rw [hrec]; exact Bool.false_ne_true)
        simp [runLoop, hmem, hr, recStep, hf, ih]

theorem runLoop_connects (tested : List String) (inputs : Location → CycleInput)
    (catalog : List Location) : ∀ st : LoopState,
    (runLoop tested inputs catalog st).connects =
      st.connects ++ catalog.filterMap
        (fun loc => if loc.iso ∈ tested then none else some loc.iso) := by
  induction catalog with
  | nil => intro st; simp [runLoop]
  | cons loc rest ih =>
    intro st
    by_cases hmem : loc.iso ∈ tested
    · simp [runLoop, hmem, ih]
    · simp [runLoop, hmem, ih]

/-- C4: a location whose ISO is in the resume set is skipped and never
triggers a connect attempt; and, run twice against the same working
directory with an unchanged catalog (the second run resuming from the ISO
set recorded by the first), the union of the recorded ISO sets equals the
set a single full pass would record, where that pass behaves like the first
run on the locations the first run recorded and like the second run on the
rest. -/
theorem idempotent_resume :
    (∀ (catalog : List Location) (tested : List String)
        (inputs : Location → CycleInput) (net : NetState) (csv : CsvState)
        (x : String), x ∈ tested →
        x ∉ (runLoop tested inputs catalog (initLoopState net csv)).connects) ∧
    (∀ (catalog : List Location) (o1 o2 : Location → CycleInput)
        (succ : CycleInput) (net1 net2 netf : NetState)
        (csv1 csv2 csvf : CsvState) (x : String),
        cycleSucceeds succ = true →
        ((x ∈ (runLoop [] o1 catalog (initLoopState net1 csv1)).recorded ∨
          x ∈ (runLoop
                ((runLoop [] o1 catalog (initLoopState net1 csv1)).recorded)
                o2 catalog (initLoopState net2 csv2)).recorded) ↔
          x ∈ (runLoop []
                (fun loc =>
                  if loc.iso ∈ (runLoop [] o1 catalog (initLoopState net1 csv1)).recorded
                  then succ else o2 loc)
                catalog (initLoopState netf csvf)).recorded)) := by
  constructor
  · intro catalog tested inputs net csv x hx
    rw [runLoop_connects]
    simp only [initLoopState, List.nil_append, List.mem_filterMap]
    rintro ⟨loc, hloc, heq⟩
    by_cases hmem : loc.iso ∈ tested
    · rw [if_pos hmem] at heq
      exact Option.noConfusion heq
    · rw [if_neg hmem] at heq
      have hiso : loc.iso = x := Option.some.inj heq
      exact hmem (by rw [hiso]; exact hx)
  · intro catalog o1 o2 succ net1 net2 netf csv1 csv2 csvf x hsucc
    have hchar : ∀ (tested : List String) (o : Location → CycleInput)
        (net : NetState) (csv : CsvState) (y : String),
        y ∈ (runLoop tested o catalog (initLoopState net csv)).recorded ↔
          ∃ loc, loc ∈ catalog ∧ loc.iso ∉ tested ∧
            cycleSucceeds (o loc) = true ∧ loc.iso = y := by
      intro tested o net csv y
      rw [runLoop_recorded]
      simp only [initLoopState, List.nil_append, List.mem_filterMap,
        recStep_eq_some]
    set r1 := (runLoop [] o1 catalog (initLoopState net1 csv1)).recorded with hr1
    constructor
    · rintro (hx | hx)
      · have hx1 := hx
        rw [hr1, hchar [] o1 net1 csv1 x] at hx1
        obtain ⟨loc, hloc, _, _, hiso⟩ := hx1
        rw [hchar [] _ netf csvf x]
        have hmem : loc.iso ∈ r1 := by rw [hiso]; exact hx
        refine ⟨loc, hloc, by simp, ?_, hiso⟩
        show cycleSucceeds (if loc.iso ∈ r1 then succ else o2 loc) = true
        rw [if_pos hmem]
        exact hsucc
      · rw [hchar r1 o2 net2 csv2 x] at hx
        obtain ⟨loc, hloc, hnot, hs, hiso⟩ := hx
        rw [hchar [] _ netf csvf x]
        refine ⟨loc, hloc, by simp, ?_, hiso⟩
        show cycleSucceeds (if loc.iso ∈ r1 then succ else o2 loc) = true
        rw [if_neg hnot]
        exact hs
    · intro hx
      rw [hchar [] _ netf csvf x] at hx
      obtain ⟨loc, hloc, _, hs, hiso⟩ := hx
      have hs' : cycleSucceeds (if loc.iso ∈ r1 then succ else o2 loc) = true := hs
      by_cases hmem : loc.iso ∈ r1
      · left
        rw [← hiso]
        exact hmem
      · right
        rw [hchar r1 o2 net2 csv2 x]
        rw [if_neg hmem] at hs'
        exact ⟨loc, hloc, hmem, hs', hiso⟩

theorem idempotent_resume_witness :
    "US" ∉ (runLoop ["US"] (fun _ => { connectOk := true, measure := .exn })
        [{ iso := "US", country := "United States", city := "New York",
           pingEstimate := "12" }]
        (initLoopState { socketCtor := .plainSocket, defaultProxy := none }
          (openCsv none))).connects ∧
    "US" ∈ (runLoop []
        (fun loc =>
          if loc.iso ∈ (runLoop []
              (fun _ => { connectOk := true,
                          measure := .ok [("download", "1000000")] })
              [{ iso := "US", country := "United States", city := "New York",
                 pingEstimate := "12" }]
              (initLoopState
                { socketCtor := .plainSocket, defaultProxy := none }
                (openCsv none))).recorded
          then { connectOk := true, measure := .ok [("download", "1000000")] }
          else { connectOk := false, measure := .exn })
        [{ iso := "US", country := "United States", city := "New York",
           pingEstimate := "12" }]
        (initLoopState { socketCtor := .plainSocket, defaultProxy := none }
          (openCsv none))).recorded := by
  constructor
  · exact idempotent_resume.1
      [{ iso := "US", country := "United States", city := "New York",
         pingEstimate := "12" }]
      ["US"] (fun _ => { connectOk := true, measure := .exn })
      { socketCtor := .plainSocket, defaultProxy := none } (openCsv none)
      "US" (by decide)
  · exact (idempotent_resume.2
      [{ iso := "US", country := "United States", city := "New York",
         pingEstimate := "12" }]
      (fun _ => { connectOk := true, measure := .ok [("download", "1000000")] })
      (fun _ => { connectOk := false, measure := .exn })
      { connectOk := true, measure := .ok [("download", "1000000")] }
      { socketCtor := .plainSocket, defaultProxy := none }
      { socketCtor := .plainSocket, defaultProxy := none }
      { socketCtor := .plainSocket, defaultProxy := none }
      (openCsv none) (openCsv none) (openCsv none)
      "US" (by decide)).mp (Or.inl (by decide))

/-- C6: when the connect invocation exits non-zero, the cycle returns at
once: the result file is untouched, no record is produced, the global socket
state is not mutated (no proxy installation), no measurement call is made,
the only event is the connect command itself, and the run continues — the
recorded ISO list of the remaining loop is exactly what it would have been
without this location. -/
theorem skip_on_failed_connect (loc : Location) (inp : CycleInput)
    (net : NetState) (csv : CsvState) (hconn : inp.connectOk = false) :
    (test_and_record_speed loc inp net csv).csv = csv ∧
    (test_and_record_speed loc inp net csv).record = none ∧
    (test_and_record_speed loc inp net csv).net = net ∧
    (test_and_record_speed loc inp net csv).events = [Event.connectCmd loc.iso] ∧
    Event.proxyInstall ∉ (test_and_record_speed loc inp net csv).events ∧
    Event.measureAttempt ∉ (test_and_record_speed loc inp net csv).events ∧
    (∀ (tested : List String) (inputs : Location → CycleInput)
        (rest : List Location) (st : LoopState), inputs loc = inp →
        (runLoop tested inputs (loc :: rest) st).recorded =
          (runLoop tested inputs rest st).recorded) := by
  have hcyc : cycleSucceeds inp = false := by
    rcases inp with ⟨co, m⟩
    simp only at hconn
    subst hconn
    simp [cycleSucceeds]
  refine ⟨?_, ?_, ?_, ?_, ?_, ?_, ?_⟩
  · simp [test_and_record_speed, hconn]
  · simp [test_and_record_speed, hconn]
  · simp [test_and_record_speed, hconn]
  · simp [test_and_record_speed, hconn]
  · simp [test_and_record_speed, hconn]
  · simp [test_and_record_speed, hconn]
  · intro tested inputs rest st hinp
    rw [runLoop_recorded, runLoop_recorded]
    have hnone : recStep tested inputs loc = none := by
      simp [recStep, hinp, hcyc]
    simp [List.filterMap_cons, hnone]

theorem skip_on_failed_connect_witness :
    (test_and_record_speed
        { iso := "DE", country := "Germany", city := "Berlin", pingEstimate := "40" }
        { connectOk := false, measure := .exn }
        { socketCtor := .plainSocket, defaultProxy := none }
        (openCsv none)).csv = openCsv none ∧
    (test_and_record_speed
        { iso := "DE", country := "Germany", city := "Berlin", pingEstimate := "40" }
        { connectOk := false, measure := .exn }
        { socketCtor := .plainSocket, defaultProxy := none }
        (openCsv none)).record = none ∧
    (runLoop [] (fun _ => { connectOk := false, measure := .exn })
        [{ iso := "DE", country := "Germany", city := "Berlin", pingEstimate := "40" }]
        (initLoopState { socketCtor := .plainSocket, defaultProxy := none }
          (openCsv none))).recorded =
      (runLoop [] (fun _ => { connectOk := false, measure := .exn }) []
        (initLoopState { socketCtor := .plainSocket, defaultProxy := none }
          (openCsv none))).recorded := by
  have h := skip_on_failed_connect
    { iso := "DE", country := "Germany", city := "Berlin", pingEstimate := "40" }
    { connectOk := false, measure := .exn }
    { socketCtor := .plainSocket, defaultProxy := none }
    (openCsv none) rfl
  exact ⟨h.1, h.2.1, h.2.2.2.2.2.2 [] (fun _ => { connectOk := false, measure := .exn })
    [] (initLoopState { socketCtor := .plainSocket, defaultProxy := none }
      (openCsv none)) rfl⟩

/-- C7: when connect succeeds but the measurement raises, the exception is
caught: no record at all is produced, the result file is untouched, the
cycle still ends with the proxy state reverted, and the run continues — a
catalog containing this location records exactly what the catalog without it
records. -/
theorem no_record_on_measure_failure (loc : Location) (inp : CycleInput)
    (net : NetState) (csv : CsvState) (hconn : inp.connectOk = true)
    (hm : inp.measure = .exn) :
    (test_and_record_speed loc inp net csv).record = none ∧
    (test_and_record_speed loc inp net csv).csv = csv ∧
    (test_and_record_speed loc inp net csv).net =
      { socketCtor := net.socketCtor, defaultProxy := none } ∧
    (∀ (tested : List String) (inputs : Location → CycleInput)
        (xs ys : List Location) (st : LoopState), inputs loc = inp →
        (runLoop tested inputs (xs ++ loc :: ys) st).recorded =
          (runLoop tested inputs (xs ++ ys) st).recorded) := by
  obtain ⟨co, m⟩ := inp
  simp only at hconn hm
  subst hconn
  subst hm
  refine ⟨?_, ?_, ?_, ?_⟩
  · simp [test_and_record_speed]
  · simp [test_and_record_speed]
  · simp [test_and_record_speed]
  · intro tested inputs xs ys st hinp
    rw [runLoop_recorded, runLoop_recorded, List.filterMap_append,
      List.filterMap_append]
    have hnone : recStep tested inputs loc = none := by
      simp [recStep, hinp, cycleSucceeds]
    simp [List.filterMap_cons, hnone]

theorem no_record_on_measure_failure_witness :
    (test_and_record_speed
        { iso := "FR", country := "France", city := "Paris", pingEstimate := "30" }
        { connectOk := true, measure := .exn }
        { socketCtor := .plainSocket, defaultProxy := none }
        (openCsv none)).record = none ∧
    (test_and_record_speed
        { iso := "FR", country := "France", city := "Paris", pingEstimate := "30" }
        { connectOk := true, measure := .exn }
        { socketCtor := .plainSocket, defaultProxy := none }
        (openCsv none)).csv = openCsv none ∧
    (runLoop [] (fun _ => { connectOk := true, measure := .exn })
        ([] ++ { iso := "FR", country := "France", city := "Paris",
                 pingEstimate := "30" } :: [])
        (initLoopState { socketCtor := .plainSocket, defaultProxy := none }
          (openCsv none))).recorded =
      (runLoop [] (fun _ => { connectOk := true, measure := .exn }) ([] ++ [])
        (initLoopState { socketCtor := .plainSocket, defaultProxy := none }
          (openCsv none))).recorded := by
  have h := no_record_on_measure_failure
    { iso := "FR", country := "France", city := "Paris", pingEstimate := "30" }
    { connectOk := true, measure := .exn }
    { socketCtor := .plainSocket, defaultProxy := none }
    (openCsv none) rfl rfl
  exact ⟨h.1, h.2.1, h.2.2.2 [] (fun _ => { connectOk := true, measure := .exn })
    [] [] (initLoopState { socketCtor := .plainSocket, defaultProxy := none }
      (openCsv none)) rfl⟩

theorem appendRecords_written (hdr : List String) (recs : List Row) :
    ∀ c : List (List String),
    appendRecords { fieldnames := hdr, isNewFile := false, content := c } recs =
      { fieldnames := hdr, isNewFile := false,
        content := c ++ recs.map (shapeRow hdr) } := by
  induction recs with
  | nil => intro c; simp [appendRecords]
  | cons r rs ih =>
    intro c
    have h1 : writeRecord { fieldnames := hdr, isNewFile := false, content := c } r =
        { fieldnames := hdr, isNewFile := false,
          content := c ++ [shapeRow hdr r] } := by
      simp [writeRecord]
    have h2 := ih (c ++ [shapeRow hdr r])
    rw [appendRecords, List.foldl_cons, h1]
    rw [appendRecords] at h2
    rw [h2]
    simp

/-- C8: the header of the active result file is fixed exactly once — by the
pre-existing first line, read once at open, or by the field set of the first
record written to a new/empty file — and is never rewritten; every row
written afterwards is shaped to that column set (fields of the record not in
the header are dropped, missing ones filled with the empty string), so every
data row has exactly the header length. -/
theorem header_stability :
    (∀ (hdr : List String) (rows : List (List String)) (recs : List Row),
        appendRecords (openCsv (some (hdr :: rows))) recs =
          { fieldnames := hdr, isNewFile := false,
            content := (hdr :: rows) ++ recs.map (shapeRow hdr) }) ∧
    (∀ (r : Row) (recs : List Row),
        appendRecords (openCsv none) (r :: recs) =
          { fieldnames := r.map Prod.fst, isNewFile := false,
            content := (r.map Prod.fst) :: shapeRow (r.map Prod.fst) r ::
              recs.map (shapeRow (r.map Prod.fst)) }) ∧
    (∀ (fieldnames : List String) (rec : Row),
        (shapeRow fieldnames rec).length = fieldnames.length) := by
  refine ⟨?_, ?_, ?_⟩
  · intro hdr rows recs
    exact appendRecords_written hdr recs (hdr :: rows)
  · intro r recs
    have h1 : writeRecord (openCsv none) r =
        { fieldnames := r.map Prod.fst, isNewFile := false,
          content := [r.map Prod.fst, shapeRow (r.map Prod.fst) r] } := by
      simp [openCsv, writeRecord]
    rw [appendRecords, List.foldl_cons, h1]
    have h2 := appendRecords_written (r.map Prod.fst) recs
      [r.map Prod.fst, shapeRow (r.map Prod.fst) r]
    rw [appendRecords] at h2
    rw [h2]
    simp
  · intro fieldnames rec
    simp [shapeRow]

theorem mem_isoValues_aux (rows : List Row) (x : String) : ∀ acc : List String,
    x ∈ rows.foldl
        (fun acc r =>
          match rowLookup r "ISO" with
          | some v => if v ≠ "" then acc ++ [v] else acc
          | none => acc) acc ↔
      x ∈ acc ∨ ∃ r, r ∈ rows ∧ rowLookup r "ISO" = some x ∧ x ≠ "" := by
  induction rows with
  | nil => intro acc; simp
  | cons r rs ih =>
    intro acc
    cases h : rowLookup r "ISO" with
    | none =>
      rw [List.foldl_cons]
      simp only [h]
      rw [ih acc]
      constructor
      · rintro (hx | ⟨r', hr', hl, hne⟩)
        · exact Or.inl hx
        · exact Or.inr ⟨r', List.mem_cons_of_mem r hr', hl, hne⟩
      · rintro (hx | ⟨r', hr', hl, hne⟩)
        · exact Or.inl hx
        · rcases List.mem_cons.mp hr' with heq | hmem
          · rw [heq] at hl
            rw [hl] at h
            exact Option.noConfusion h
          · exact Or.inr ⟨r', hmem, hl, hne⟩
    | some v =>
      by_cases hv : v = ""
      · rw [List.foldl_cons]
        simp only [h, hv, ne_eq, not_true_eq_false, if_false]
        rw [ih acc]
        constructor
        · rintro (hx | ⟨r', hr', hl, hne⟩)
          · exact Or.inl hx
          · exact Or.inr ⟨r', List.mem_cons_of_mem r hr', hl, hne⟩
        · rintro (hx | ⟨r', hr', hl, hne⟩)
          · exact Or.inl hx
          · rcases List.mem_cons.mp hr' with heq | hmem
            · rw [heq] at hl
              rw [hl] at h
              have hvx : x = v := Option.some.inj h
              exact absurd (hvx.trans hv) hne
            · exact Or.inr ⟨r', hmem, hl, hne⟩
      · rw [List.foldl_cons]
        simp only [h, hv, ne_eq, not_false_eq_true, if_true]
        rw [ih (acc ++ [v])]
        constructor
        · rintro (hx | ⟨r', hr', hl, hne⟩)
          · rcases List.mem_append.mp hx with hx | hx
            · exact Or.inl hx
            · have hxv : x = v := by simpa using hx
              refine Or.inr ⟨r, List.mem_cons_self r rs, ?_, ?_⟩
              · rw [h, hxv]
              · rw [hxv]; exact hv
          · exact Or.inr ⟨r', List.mem_cons_of_mem r hr', hl, hne⟩
        · rintro (hx | ⟨r', hr', hl, hne⟩)
          · exact Or.inl (List.mem_append.mpr (Or.inl hx))
          · rcases List.mem_cons.mp hr' with heq | hmem
            · rw [heq] at hl
              rw [hl] at h
              have hvx : x = v := Option.some.inj h
              left
              rw [hvx]
              simp
            · exact Or.inr ⟨r', hmem, hl, hne⟩

/-- C9 counterexample: a prior result file is found and chosen, one row with
ISO "US" is read, then the reader raises; the claim says the returned resume
set is empty, but the code returns the partially accumulated set, namely
["US"]. -/
theorem resume_load_counterexample :
    (load_tested_nodes "adguard_speedtest_results_20260102_000000.csv"
        { candidates := [("adguard_speedtest_results_20260101_000000.csv", 5)],
          rowsRead := [[("ISO", "US"), ("download", "1000000")]],
          readError := true }).2 = ["US"] ∧
    (["US"] : List String) ≠ [] := by
  refine ⟨by decide, by decide⟩

/-- C9 amended: when a most-recently-modified prior result file is found but
reading it raises, the run is not aborted — `load_tested_nodes` still
returns, the chosen path remains the active file, and the resume set
contains exactly the ISO values of the rows successfully read before the
error; in particular it is empty when the error struck before any row was
read (for example when the open itself failed). -/
theorem resume_load_failure_tolerance (defaultFile : String)
    (c0 : String × Nat) (cs : List (String × Nat)) (rows : List Row) :
    load_tested_nodes defaultFile
        { candidates := c0 :: cs, rowsRead := rows, readError := true } =
      ((latestFile c0 cs).1, isoValues rows) ∧
    load_tested_nodes defaultFile
        { candidates := c0 :: cs, rowsRead := [], readError := true } =
      ((latestFile c0 cs).1, []) := by
  exact ⟨rfl, rfl⟩

/-- C10: the resume set contains exactly the non-empty ISO values of the
rows read from the chosen prior result file — a row without an ISO entry, or
with an empty ISO value, contributes nothing and so can never cause a
catalog location to be skipped. -/
theorem resume_set_exact (defaultFile : String) (c0 : String × Nat)
    (cs : List (String × Nat)) (rows : List Row) (err : Bool) (x : String) :
    x ∈ (load_tested_nodes defaultFile
          { candidates := c0 :: cs, rowsRead := rows, readError := err }).2 ↔
      ∃ r, r ∈ rows ∧ rowLookup r "ISO" = some x ∧ x ≠ "" := by
  show x ∈ isoValues rows ↔ _
  unfold isoValues
  rw [mem_isoValues_aux rows x []]
  simp

end AdguardSpeedtest
